import Mathlib

/-!
Verification of the `webbrowser`-style launcher module (`src/code.py`).

The module is shallowly embedded: external effects (process spawning via
`subprocess.Popen`, `shutil.which`, the `osascript` pipe of `os.popen`) are
modelled by an `Env` oracle describing the outcome of each external
operation, and each connector's `open` method becomes a pure function that
threads a spawn counter through the oracle and returns the Python-level
result (`Except PyExn Bool`) together with a trace of observable events
(audit events and spawn attempts).
-/

set_option autoImplicit false

namespace Webbrowser

/-- Python-level exceptional outcomes that the module's code can produce:
`error msg` is the module's own `Error` exception, `osError` stands for an
`OSError` raised by `subprocess.Popen` (or the wrapped `try` block), and
`typeError` stands for a `TypeError` from `str.replace` with a `None`
argument. -/
inductive PyExn where
  | error (msg : String)
  | osError
  | typeError
  deriving Repr, DecidableEq

instance instDecEqExcept {ε α : Type} [DecidableEq ε] [DecidableEq α] :
    DecidableEq (Except ε α) := fun x y =>
  match x, y with
  | .ok a, .ok b =>
    if h : a = b then .isTrue (congrArg Except.ok h)
    else .isFalse (fun hh => h (Except.ok.inj hh))
  | .error a, .error b =>
    if h : a = b then .isTrue (congrArg Except.error h)
    else .isFalse (fun hh => h (Except.error.inj hh))
  | .ok _, .error _ => .isFalse (fun hh => Except.noConfusion hh)
  | .error _, .ok _ => .isFalse (fun hh => Except.noConfusion hh)

/-- Observable events of one call: `audit hook url` models `sys.audit(hook, url)`;
`spawn cmdline` models an attempted `subprocess.Popen(cmdline, ...)` (or the
`os.popen("osascript")` pipe, recorded as `spawn ["osascript"]`). -/
inductive Event where
  | audit (hook : String) (url : String)
  | spawn (cmdline : List String)
  deriving Repr, DecidableEq

/-- Behaviour of the process created by one `Popen` call:
`spawnOk = false` means the spawn raised `OSError`;
`poll` is the immediate `p.poll()` result (`none` = still running);
`waitCode` is the exit status returned by `p.wait()`;
`waitT` is the result of `p.wait(5)` (`none` = `TimeoutExpired`). -/
structure ProcBehavior where
  spawnOk : Bool
  poll : Option Int
  waitCode : Int
  waitT : Option Int
  deriving Repr

/-- The external environment: `procs n` is the behaviour of the `n`-th spawned
process of the run, `which` models `shutil.which` (is the executable locatable
on the search path), and `osaPipe` models `os.popen("osascript", "w")`:
`none` = the pipe is `None`, `some rc` = the pipe opens and `close()` returns
`rc` (`none` = success). -/
structure Env where
  procs : Nat → ProcBehavior
  which : String → Bool
  osaPipe : Option (Option Int)

/-- `str.lower()`, modelled characterwise (adequate for the ASCII names the
module handles). -/
def pyLower (s : String) : String :=
  ⟨s.data.map Char.toLower⟩

/-- Helper of `osBasename`: the characters after the last slash. -/
def basenameGo : List Char → List Char → List Char
  | [], acc => acc.reverse
  | c :: rest, acc => if c = '/' then basenameGo rest [] else basenameGo rest (c :: acc)

/-- `os.path.basename` for POSIX paths: the part after the last slash. -/
def osBasename (p : String) : String :=
  ⟨basenameGo p.data []⟩

/-- Helper of `strIn`: does `needle` occur as a contiguous sublist of `hay`. -/
def strInGo (needle : List Char) : List Char → Bool
  | [] => needle.isPrefixOf []
  | c :: rest => needle.isPrefixOf (c :: rest) || strInGo needle rest

/-- Python's `needle in hay` substring test. -/
def strIn (needle hay : String) : Bool :=
  strInGo needle.data hay.data

/-- Helper of `pyReplace`, fuelled by the length of the subject (each step
consumes at least one character, so `length + 1` fuel always suffices). -/
def replaceGo (pat rep : List Char) : Nat → List Char → List Char
  | 0, s => s
  | _ + 1, [] => []
  | fuel + 1, c :: rest =>
    if pat.isPrefixOf (c :: rest) then rep ++ replaceGo pat rep fuel ((c :: rest).drop pat.length)
    else c :: replaceGo pat rep fuel rest

/-- `str.replace(pat, rep)`: replace every non-overlapping occurrence, left to
right. (The module only ever replaces the non-empty patterns `%s`, `%action`
and a double quote; the empty-pattern case falls back to the subject.) -/
def pyReplace (s pat rep : String) : String :=
  if pat.data.isEmpty then s
  else ⟨replaceGo pat.data rep.data (s.data.length + 1) s.data⟩

/-- Whitespace for `str.split()`. -/
def isWs (c : Char) : Bool :=
  c = ' ' || c = '\t' || c = '\n' || c = '\r'

/-- Helper of `pySplitWs`: split on whitespace runs, discarding empties. -/
def splitWsGo : List Char → List Char → List (List Char)
  | [], acc => if acc.isEmpty then [] else [acc.reverse]
  | c :: rest, acc =>
    if isWs c then
      if acc.isEmpty then splitWsGo rest [] else acc.reverse :: splitWsGo rest []
    else splitWsGo rest (c :: acc)

/-- Python's `str.split()` with no argument: split on whitespace runs,
discarding empty tokens. -/
def pySplitWs (s : String) : List String :=
  (splitWsGo s.data []).map (fun l => ⟨l⟩)

/-- The state of `GenericBrowser` / `BackgroundBrowser` instances:
`name`, `args` and `basename` attributes. -/
structure GenericBrowser where
  name : String
  args : List String
  basename : String
  deriving Repr

/-- `GenericBrowser(name)` with a string argument: `args = ['%s']`,
`basename = os.path.basename(name)`. -/
def mkGenericStr (name : String) : GenericBrowser :=
  { name := name, args := ["%s"], basename := osBasename name }

/-- `GenericBrowser(name)` with a list argument: `name = argv[0]`,
`args = argv[1:]`, `basename = os.path.basename(name)`.
(Call sites always pass a non-empty list; an empty list would raise
`IndexError` in Python and is given the empty name here.) -/
def mkGenericList (argv : List String) : GenericBrowser :=
  { name := argv.headD "", args := argv.tail, basename := osBasename (argv.headD "") }

/-- The class-level configuration and instance state of a `UnixBrowser`. -/
structure UnixBrowser where
  name : String
  basename : String
  args : List String := ["%s"]
  raise_opts : Option (List String) := none
  background : Bool := false
  redirect_stdout : Bool := true
  remote_args : List String := ["%action", "%s"]
  remote_action : Option String := none
  remote_action_newwin : Option String := none
  remote_action_newtab : Option String := none

/-- `GenericBrowser.open` (src lines 129-139): audit, build the command line by
substituting the url for `%s`, `Popen` inside `try/except OSError`, success is
`not p.wait()`; any `OSError` yields `False`. -/
def genericOpen (g : GenericBrowser) (env : Env) (k : Nat) (url : String)
    (new : Int) (autoraise : Bool) : Except PyExn Bool × List Event × Nat :=
  let _ := new
  let _ := autoraise
  let cmdline := g.name :: g.args.map (fun a => pyReplace a "%s" url)
  let b := env.procs k
  let evs := [Event.audit "webbrowser.open" url, Event.spawn cmdline]
  if b.spawnOk then
    (.ok (decide (b.waitCode = 0)), evs, k + 1)
  else
    (.ok false, evs, k + 1)

/-- `BackgroundBrowser.open` (src lines 144-154): like `genericOpen` but the
process is detached and success is `p.poll() is None`. -/
def backgroundOpen (g : GenericBrowser) (env : Env) (k : Nat) (url : String)
    (new : Int) (autoraise : Bool) : Except PyExn Bool × List Event × Nat :=
  let _ := new
  let _ := autoraise
  let cmdline := g.name :: g.args.map (fun a => pyReplace a "%s" url)
  let b := env.procs k
  let evs := [Event.audit "webbrowser.open" url, Event.spawn cmdline]
  if b.spawnOk then
    (.ok b.poll.isNone, evs, k + 1)
  else
    (.ok false, evs, k + 1)

/-- `UnixBrowser._invoke` (src lines 166-190). Note the `Popen` call is NOT
wrapped in a `try/except`: a spawn-level `OSError` propagates to the caller
(`.error .osError`). In the remote case success is `not p.wait(5)`, with
`TimeoutExpired` treated as success; in the background case success is
`p.poll() is None`; otherwise success is `not p.wait()`. -/
def unixInvoke (u : UnixBrowser) (env : Env) (k : Nat) (args : List String)
    (remote : Bool) (autoraise : Bool) : Except PyExn Bool × List Event × Nat :=
  let raise_opt : List String :=
    match u.raise_opts with
    | none => []
    | some opts =>
      if remote ∧ opts ≠ [] then
        let opt := opts.getD (if autoraise then 1 else 0) ""
        if opt ≠ "" then [opt] else []
      else []
  let cmdline := u.name :: (raise_opt ++ args)
  let b := env.procs k
  let evs := [Event.spawn cmdline]
  if b.spawnOk then
    if remote then
      match b.waitT with
      | some rc => (.ok (decide (rc = 0)), evs, k + 1)
      | none => (.ok true, evs, k + 1)
    else if u.background then
      (.ok b.poll.isNone, evs, k + 1)
    else
      (.ok (decide (b.waitCode = 0)), evs, k + 1)
  else
    (.error .osError, evs, k + 1)

/-- The message of the `Error` raised by `UnixBrowser.open` on a bad `new`. -/
def badNewMsg (new : Int) : String :=
  "Bad new parameter to open(); expected 0, 1, or 2, got " ++ toString new

/-- `UnixBrowser.open` (src lines 192-214): audit; select the remote action
from `new` (raising `Error` outside {0,1,2}); substitute `%s`/`%action` in
`remote_args` and drop empty arguments; try the remote phase; on a `False`
result fall back to a plain launch with `self.args`. A `None` action fed to
`str.replace` raises `TypeError` (only reachable with unset action slots). -/
def unixOpen (u : UnixBrowser) (env : Env) (k : Nat) (url : String)
    (new : Int) (autoraise : Bool) : Except PyExn Bool × List Event × Nat :=
  let ev0 := [Event.audit "webbrowser.open" url]
  let actE : Except PyExn (Option String) :=
    if new = 0 then .ok u.remote_action
    else if new = 1 then .ok u.remote_action_newwin
    else if new = 2 then
      match u.remote_action_newtab with
      | none => .ok u.remote_action_newwin
      | some t => .ok (some t)
    else .error (.error (badNewMsg new))
  match actE with
  | .error e => (.error e, ev0, k)
  | .ok none =>
    if u.remote_args.isEmpty then
      let (res1, ev1, k1) := unixInvoke u env k [] true autoraise
      match res1 with
      | .error e => (.error e, ev0 ++ ev1, k1)
      | .ok true => (.ok true, ev0 ++ ev1, k1)
      | .ok false =>
        let args2 := u.args.map (fun a => pyReplace a "%s" url)
        let (res2, ev2, k2) := unixInvoke u env k1 args2 false false
        (res2, ev0 ++ ev1 ++ ev2, k2)
    else (.error .typeError, ev0, k)
  | .ok (some act) =>
    let args1 := (u.remote_args.map
      (fun a => pyReplace (pyReplace a "%s" url) "%action" act)).filter (fun a => a ≠ "")
    let (res1, ev1, k1) := unixInvoke u env k args1 true autoraise
    match res1 with
    | .error e => (.error e, ev0 ++ ev1, k1)
    | .ok true => (.ok true, ev0 ++ ev1, k1)
    | .ok false =>
      let args2 := u.args.map (fun a => pyReplace a "%s" url)
      let (res2, ev2, k2) := unixInvoke u env k1 args2 false false
      (res2, ev0 ++ ev1 ++ ev2, k2)

/-- `Konqueror.open` (src lines 261-287): audit; choose `newTab`/`openURL`
from `new`; then try three command forms in order, each `Popen` wrapped in
`try/except OSError`:
1. `kfmclient`: if it spawns, `p.wait()` and return `True` unconditionally;
2. `konqueror`: if it spawns and `p.poll()` is `None` return `True`,
   otherwise fall through;
3. `kfm`: if it spawns return `p.poll() is None`, else return `False`. -/
def konqOpen (env : Env) (k : Nat) (url : String) (new : Int)
    (autoraise : Bool) : Except PyExn Bool × List Event × Nat :=
  let _ := autoraise
  let action := if new = 2 then "newTab" else "openURL"
  let ev0 := [Event.audit "webbrowser.open" url]
  let b1 := env.procs k
  let ev1 := [Event.spawn ["kfmclient", action, url]]
  if b1.spawnOk then
    (.ok true, ev0 ++ ev1, k + 1)
  else
    let b2 := env.procs (k + 1)
    let ev2 := [Event.spawn ["konqueror", "--silent", url]]
    if b2.spawnOk ∧ b2.poll.isNone then
      (.ok true, ev0 ++ ev1 ++ ev2, k + 2)
    else
      let b3 := env.procs (k + 2)
      let ev3 := [Event.spawn ["kfm", "-d", url]]
      if b3.spawnOk then
        (.ok b3.poll.isNone, ev0 ++ ev1 ++ ev2 ++ ev3, k + 3)
      else
        (.ok false, ev0 ++ ev1 ++ ev2 ++ ev3, k + 3)

/-- `MacOSXOSAScript.open` (src lines 429-439). The source contains NO
`sys.audit` call here (unlike every other connector), so no audit event is
emitted. The script is written to an `osascript` pipe; a `None` pipe yields
`False`, otherwise success is `not pipe.close()`. -/
def osaOpen (name : String) (env : Env) (k : Nat) (url : String)
    (new : Int) (autoraise : Bool) : Except PyExn Bool × List Event × Nat :=
  let _ := new
  let _ := autoraise
  let u := pyReplace url "\"" "%22"
  let _script :=
    if name = "default" then "open location \"" ++ u ++ "\""
    else "tell application \"" ++ name ++ "\" activate open location \"" ++ u ++ "\" end tell"
  match env.osaPipe with
  | none => (.ok false, [], k)
  | some rc => (.ok rc.isNone, [Event.spawn ["osascript"]], k)

/-- A connector instance, one variant per concrete connector class of the
module; `konq` and `osa` carry the `name`/`basename` attributes set by
`BaseBrowser.__init__`. -/
inductive Browser where
  | generic (g : GenericBrowser)
  | background (g : GenericBrowser)
  | unix (u : UnixBrowser)
  | konq (name : String) (basename : String)
  | osa (name : String) (basename : String)

/-- The `name` attribute of a connector instance. -/
def Browser.nameOf : Browser → String
  | .generic g => g.name
  | .background g => g.name
  | .unix u => u.name
  | .konq n _ => n
  | .osa n _ => n

/-- The `basename` attribute of a connector instance. -/
def Browser.basenameOf : Browser → String
  | .generic g => g.basename
  | .background g => g.basename
  | .unix u => u.basename
  | .konq _ b => b
  | .osa _ b => b

/-- `copy.copy(controller)` followed by assigning `name` and `basename`
(src lines 92-95). -/
def Browser.withNameBase : Browser → String → String → Browser
  | .generic g, n, b => .generic { g with name := n, basename := b }
  | .background g, n, b => .background { g with name := n, basename := b }
  | .unix u, n, b => .unix { u with name := n, basename := b }
  | .konq _ _, n, b => .konq n b
  | .osa _ _, n, b => .osa n b

/-- Dispatch of `browser.open(url, new, autoraise)` to the variant's method
(named `openB` because `open` is a Lean keyword). -/
def Browser.openB : Browser → Env → Nat → String → Int → Bool →
    Except PyExn Bool × List Event × Nat
  | .generic g => genericOpen g
  | .background g => backgroundOpen g
  | .unix u => unixOpen u
  | .konq _ _ => konqOpen
  | .osa n _ => osaOpen n

/-- A `_browsers` map entry `[klass, instance]`: an optional zero-argument
factory and an optional pre-built instance. -/
structure Descriptor where
  klass : Option (Unit → Browser)
  inst : Option Browser

/-- The module state: the `_browsers` dictionary (insertion-ordered
association list with unique keys, as a Python dict), the `_tryorder`
preference list and `_os_preferred_browser`. -/
structure Registry where
  browsers : List (String × Descriptor)
  tryorder : List String
  osPreferred : Option String

/-- Python dict assignment `m[k] = v`: overwrite in place if the key exists,
otherwise append. -/
def dictInsert (m : List (String × Descriptor)) (k : String) (v : Descriptor) :
    List (String × Descriptor) :=
  match m with
  | [] => [(k, v)]
  | (k', v') :: rest =>
    if k' = k then (k, v) :: rest else (k', v') :: dictInsert rest k v

/-- `register(name, klass, instance, preferred=...)` (src lines 20-29): store
the descriptor under the lowercased name; prepend the (original-case) name to
`_tryorder` when `preferred` or the name occurs in a non-empty
`_os_preferred_browser`, else append it. (The lazy `register_standard_browsers`
initialization is environment setup outside this model: the registry is an
explicit argument.) -/
def register (r : Registry) (name : String) (klass : Option (Unit → Browser))
    (inst : Option Browser) (preferred : Bool) : Registry :=
  let pref := preferred ||
    (match r.osPreferred with
     | some s => s ≠ "" && strIn name s
     | none => false)
  { browsers := dictInsert r.browsers (pyLower name) ⟨klass, inst⟩
    tryorder := if pref then name :: r.tryorder else r.tryorder ++ [name]
    osPreferred := r.osPreferred }

/-- `_synthesize(browser, preferred=...)` (src lines 79-98): take the first
whitespace token of the command, require it locatable via `shutil.which`;
look the token's basename up (lowercased) in `_browsers`; if the entry holds
an instance whose `basename` equals the lowercased basename, copy it, rebind
`name`/`basename` to the full supplied string, register the copy under that
string, and return it; otherwise return no connector. The `[None, None]` /
`[None, controller]` pair of the source is rendered as `Option Browser`
(the klass slot of the returned pair is always `None`). An empty command
would raise `IndexError` in Python; call sites pass non-empty commands. -/
def synthesize (env : Env) (r : Registry) (browser : String) (preferred : Bool) :
    Option Browser × Registry :=
  match pySplitWs browser with
  | [] => (none, r)
  | cmd :: _ =>
    if env.which cmd then
      let name := osBasename cmd
      match r.browsers.lookup (pyLower name) with
      | none => (none, r)
      | some command =>
        match command.inst with
        | none => (none, r)
        | some controller =>
          if pyLower name = controller.basenameOf then
            let controller' := controller.withNameBase browser (osBasename browser)
            (some controller', register r browser none (some controller') preferred)
          else (none, r)
    else (none, r)

/-- The candidate loop of `get` (src lines 41-56): a candidate containing the
`%s` placeholder is split with shell-quoting rules (`shlex.split`, passed in
as the `split` parameter) and immediately wrapped — `BackgroundBrowser` when
the last argv token is `&` (stripped), else `GenericBrowser` — without
consulting `_browsers`; otherwise the candidate is looked up (lowercased) in
`_browsers`, falling back to `_synthesize`; a found instance is returned, else
a found factory is called; if neither, the next candidate is tried; an empty
candidate list raises `Error`. -/
def getGo (split : String → List String) (env : Env) :
    Registry → List String → Except PyExn (Browser × Registry)
  | _, [] => .error (.error "could not locate runnable browser")
  | r, browser :: rest =>
    if strIn "%s" browser then
      let argv := split browser
      if argv.getLast? = some "&" then
        .ok (.background (mkGenericList argv.dropLast), r)
      else
        .ok (.generic (mkGenericList argv), r)
    else
      let cr : (Option (Unit → Browser) × Option Browser) × Registry :=
        match r.browsers.lookup (pyLower browser) with
        | some d => ((d.klass, d.inst), r)
        | none =>
          let (c, r2) := synthesize env r browser false
          ((none, c), r2)
      match cr.1.2 with
      | some inst => .ok (inst, cr.2)
      | none =>
        match cr.1.1 with
        | some f => .ok (f (), cr.2)
        | none => getGo split env cr.2 rest

/-- `get(using=None)` (src lines 31-56): resolve from the single explicit
candidate, or from the whole `_tryorder`. -/
def getBrowser (split : String → List String) (env : Env) (r : Registry)
    (using? : Option String) : Except PyExn (Browser × Registry) :=
  match using? with
  | some u => getGo split env r [u]
  | none => getGo split env r r.tryorder

/-- The loop of the top-level `open` (src lines 64-69). Python iterates the
live `_tryorder` list by position while `get` may append to it (through
`_synthesize`'s `register`), so the loop is indexed and fuelled; `none` is
the fuel-exhaustion artifact, never reached with adequate fuel. Each name is
resolved with `get(name)`; a `True` result stops the iteration; an exhausted
order yields `False`. Errors from `get` or from a connector propagate. -/
def openLoop (split : String → List String) (env : Env) :
    Nat → Registry → Nat → Nat → String → Int → Bool →
    Option (Except PyExn Bool × List Event × Nat)
  | 0, _, _, _, _, _, _ => none
  | fuel + 1, r, i, k, url, new, ar =>
    if h : i < r.tryorder.length then
      match getGo split env r [r.tryorder.get ⟨i, h⟩] with
      | .error e => some (.error e, [], k)
      | .ok (b, r') =>
        match b.openB env k url new ar with
        | (.error e, evs, k') => some (.error e, evs, k')
        | (.ok true, evs, k') => some (.ok true, evs, k')
        | (.ok false, evs, k') =>
          match openLoop split env fuel r' (i + 1) k' url new ar with
          | none => none
          | some (res, evs2, k2) => some (res, evs ++ evs2, k2)
    else some (.ok false, [], k)

/-- The top-level `open(url, new=0, autoraise=True)` (src lines 58-69),
with explicit fuel for the indexed loop. -/
def openUrl (split : String → List String) (env : Env) (fuel : Nat)
    (r : Registry) (url : String) (new : Int) (ar : Bool) :
    Option (Except PyExn Bool × List Event × Nat) :=
  openLoop split env fuel r 0 0 url new ar

/-- The audit events of a trace. -/
def audits (evs : List Event) : List Event :=
  evs.filter (fun e => match e with | .audit _ _ => true | .spawn _ => false)

/-- The number of spawn attempts in a trace. -/
def spawnCount (evs : List Event) : Nat :=
  (evs.filter (fun e => match e with | .spawn _ => true | .audit _ _ => false)).length

/-- The registered instance for a name, if any (the `command[1]` slot reached
through the lowercased key). -/
def resolveInst (r : Registry) (name : String) : Option Browser :=
  match r.browsers.lookup (pyLower name) with
  | some d => d.inst
  | none => none

/-- Placeholder used by `resolveInstD` for impossible misses. -/
def dfltBrowser : Browser :=
  .generic { name := "", args := [], basename := "" }

/-- The registered instance for a name, defaulted. -/
def resolveInstD (r : Registry) (name : String) : Browser :=
  (resolveInst r name).getD dfltBrowser

/-- Every name of the preference order is placeholder-free and resolves to a
stored instance (the common situation of a fully registered order). -/
def allResolvedB (r : Registry) : Bool :=
  r.tryorder.all (fun n => !(strIn "%s" n) && (resolveInst r n).isSome)

/-- Reference fold stated from the spec's words for the top-level dispatcher:
try each connector in order, stop at the first `True`, yield `False` when the
list is exhausted, propagate errors. `openUrl` is proved to refine this fold
on fully registered orders. -/
def openSpec (env : Env) (k : Nat) (bs : List Browser) (url : String)
    (new : Int) (ar : Bool) : Except PyExn Bool × List Event × Nat :=
  match bs with
  | [] => (.ok false, [], k)
  | b :: rest =>
    match b.openB env k url new ar with
    | (.error e, evs, k') => (.error e, evs, k')
    | (.ok true, evs, k') => (.ok true, evs, k')
    | (.ok false, evs, k') =>
      let (res, evs2, k2) := openSpec env k' rest url new ar
      (res, evs ++ evs2, k2)

/-- The count of entries of the `_browsers` dictionary under a key. -/
def countKey (m : List (String × Descriptor)) (k : String) : Nat :=
  (m.filter (fun p => p.1 == k)).length

/-- The `Mozilla` launcher class configuration (src lines 216-222),
instantiated at a name. -/
def Mozilla (name : String) : UnixBrowser :=
  { name := name, basename := name, remote_action := some ""
    remote_action_newwin := some "-new-window"
    remote_action_newtab := some "-new-tab", background := true }

/-! Concrete fixtures used by witnesses and counterexamples. -/

/-- A process that spawns and exits immediately with status 0. -/
def okB : ProcBehavior := ⟨true, some 0, 0, some 0⟩

/-- A process that spawns and keeps running (timeout on waits). -/
def runB : ProcBehavior := ⟨true, none, 0, none⟩

/-- A `Popen` call that raises `OSError`. -/
def failB : ProcBehavior := ⟨false, none, 0, none⟩

/-- A process that spawns and exits immediately with status 1. -/
def exit1B : ProcBehavior := ⟨true, some 1, 1, some 1⟩

/-- Benign environment: every spawn exits 0, executables exist, the
`osascript` pipe opens and closes successfully. -/
def env1 : Env := ⟨fun _ => okB, fun _ => true, some none⟩

/-- Hostile environment: every spawn raises `OSError`, nothing on the path,
no `osascript` pipe. -/
def envF : Env := ⟨fun _ => failB, fun _ => false, none⟩

/-- Every spawn keeps running; used for the remote-phase timeout scenario. -/
def envTO : Env := ⟨fun _ => runB, fun _ => true, some none⟩

/-- First spawn exits 1, later spawns keep running. -/
def envR1 : Env := ⟨fun i => if i = 0 then exit1B else runB, fun _ => true, some none⟩

/-- Every spawn exits 1 immediately; executables exist. -/
def envK : Env := ⟨fun _ => exit1B, fun _ => true, none⟩

/-- First spawn raises `OSError`, later spawns exit 1 immediately. -/
def envK2 : Env := ⟨fun i => if i = 0 then failB else exit1B, fun _ => true, none⟩

/-- Executables exist; spawns exit 0. -/
def envW : Env := ⟨fun _ => okB, fun _ => true, none⟩

/-- A registered generic-template `firefox` instance (a `Mozilla` connector
whose `basename` equals its registry key), as `register_X_browsers` creates. -/
def fxInst : Browser := .unix (Mozilla "firefox")

/-- Registry holding only the `firefox` template. -/
def reg0 : Registry := ⟨[("firefox", ⟨none, some fxInst⟩)], ["firefox"], none⟩

/-- The `Elinks` launcher class configuration (src lines 249-256),
instantiated at a name: a foreground `UnixBrowser` (`background = False`). -/
def Elinks (name : String) : UnixBrowser :=
  { name := name, basename := name
    remote_args := ["-remote", "openURL(%s%action)"]
    remote_action := some ""
    remote_action_newwin := some ",new-window"
    remote_action_newtab := some ",new-tab"
    background := false
    redirect_stdout := false }

/-- C1: the claim says every connector variant's `open` emits exactly one
`webbrowser.open` audit event carrying the target URL, whatever the outcome.
`MacOSXOSAScript.open` (src lines 429-439) contains no `sys.audit` call at
all: on a successful open it emits zero audit events, while sibling
connectors (`GenericBrowser.open`, `Konqueror.open`) emit exactly one. The
omission contradicts the module-wide auditing pattern: a code bug. -/
theorem osascript_open_emits_no_audit_event :
    audits (osaOpen "safari" env1 0 "http://x" 0 true).2.1 = []
    ∧ (osaOpen "safari" env1 0 "http://x" 0 true).1 = .ok true
    ∧ audits (genericOpen (mkGenericStr "lynx") env1 0 "http://x" 0 true).2.1
      = [.audit "webbrowser.open" "http://x"]
    ∧ audits (konqOpen env1 0 "http://x" 0 true).2.1
      = [.audit "webbrowser.open" "http://x"] :=
  ⟨by decide, by decide, by decide, by decide⟩

/-- C2 counterexample: the claim says no connector ever propagates an
exception on a launch failure, but `UnixBrowser._invoke` does not wrap its
`Popen` in a `try/except`, so a spawn-level `OSError` (executable missing)
escapes `UnixBrowser.open` to the caller. -/
theorem unix_spawn_fault_escapes :
    (unixOpen (Mozilla "firefox") envF 0 "http://x" 0 true).1 = .error .osError := by decide

/-- Helper: `GenericBrowser.open` always returns a boolean, never raising. -/
theorem genericOpen_returns_bool (g : GenericBrowser) (env : Env) (k : Nat)
    (url : String) (new : Int) (ar : Bool) :
    ∃ b, (genericOpen g env k url new ar).1 = .ok b := by
  unfold genericOpen; dsimp only; split
  · exact ⟨_, rfl⟩
  · exact ⟨_, rfl⟩

/-- Helper: `BackgroundBrowser.open` always returns a boolean, never raising. -/
theorem backgroundOpen_returns_bool (g : GenericBrowser) (env : Env) (k : Nat)
    (url : String) (new : Int) (ar : Bool) :
    ∃ b, (backgroundOpen g env k url new ar).1 = .ok b := by
  unfold backgroundOpen; dsimp only; split
  · exact ⟨_, rfl⟩
  · exact ⟨_, rfl⟩

/-- Helper: `Konqueror.open` always returns a boolean, never raising (every
`Popen` of it sits in a `try/except OSError`). -/
theorem konqOpen_returns_bool (env : Env) (k : Nat)
    (url : String) (new : Int) (ar : Bool) :
    ∃ b, (konqOpen env k url new ar).1 = .ok b := by
  unfold konqOpen; dsimp only; split
  · exact ⟨_, rfl⟩
  · split
    · exact ⟨_, rfl⟩
    · split
      · exact ⟨_, rfl⟩
      · exact ⟨_, rfl⟩

/-- C2 amended: `GenericBrowser` and `BackgroundBrowser` contain every launch
failure (spawn-level `OSError`, non-success exit status, immediate exit of
the backgrounded process) as boolean `False` and never raise. `Konqueror`
never raises — every launch outcome is a boolean — and returns `False` when
its first form fails to spawn, its second form fails to spawn or has already
exited, and its third form fails to spawn or has already exited; a launch
failure can however be masked as `True` there (a spawned `kfmclient` yields
`True` regardless of its exit status — see the C9 theorems). In
`UnixBrowser._invoke`, a non-success timed exit of the remote phase, a
non-success exit of a foreground launch, and an immediate exit of a
backgrounded launch are each returned as boolean `False`, but a spawn-level
`OSError` propagates as an exception (`Popen` is not wrapped in
`try/except`). -/
theorem launch_failure_containment_amended (env : Env) (k : Nat) (url : String)
    (new : Int) (ar : Bool) :
    (∀ g : GenericBrowser, ∃ b, (genericOpen g env k url new ar).1 = .ok b)
    ∧ (∀ g, (env.procs k).spawnOk = false → (genericOpen g env k url new ar).1 = .ok false)
    ∧ (∀ g, (env.procs k).spawnOk = true → (env.procs k).waitCode ≠ 0 →
        (genericOpen g env k url new ar).1 = .ok false)
    ∧ (∀ g : GenericBrowser, ∃ b, (backgroundOpen g env k url new ar).1 = .ok b)
    ∧ (∀ g, (env.procs k).spawnOk = false → (backgroundOpen g env k url new ar).1 = .ok false)
    ∧ (∀ g c, (env.procs k).spawnOk = true → (env.procs k).poll = some c →
        (backgroundOpen g env k url new ar).1 = .ok false)
    ∧ (∃ b, (konqOpen env k url new ar).1 = .ok b)
    ∧ ((env.procs k).spawnOk = false →
        ((env.procs (k + 1)).spawnOk = false ∨ (env.procs (k + 1)).poll.isNone = false) →
        ((env.procs (k + 2)).spawnOk = false ∨ (env.procs (k + 2)).poll.isNone = false) →
        (konqOpen env k url new ar).1 = .ok false)
    ∧ (∀ (u : UnixBrowser) (args : List String) (rc : Int),
        (env.procs k).spawnOk = true → (env.procs k).waitT = some rc → rc ≠ 0 →
        (unixInvoke u env k args true ar).1 = .ok false)
    ∧ (∀ (u : UnixBrowser) (args : List String), u.background = false →
        (env.procs k).spawnOk = true → (env.procs k).waitCode ≠ 0 →
        (unixInvoke u env k args false ar).1 = .ok false)
    ∧ (∀ (u : UnixBrowser) (args : List String) (c : Int), u.background = true →
        (env.procs k).spawnOk = true → (env.procs k).poll = some c →
        (unixInvoke u env k args false ar).1 = .ok false)
    ∧ (∀ (u : UnixBrowser) (args : List String) (remote : Bool),
        (env.procs k).spawnOk = false →
        (unixInvoke u env k args remote ar).1 = .error .osError) := by
  refine ⟨fun g => genericOpen_returns_bool g env k url new ar, ?_, ?_,
    fun g => backgroundOpen_returns_bool g env k url new ar, ?_, ?_,
    konqOpen_returns_bool env k url new ar, ?_, ?_, ?_, ?_, ?_⟩
  · intro g h; simp [genericOpen, h]
  · intro g h hc; simp [genericOpen, h, hc]
  · intro g h; simp [backgroundOpen, h]
  · intro g c h hp; simp [backgroundOpen, h, hp]
  · intro h1 h2 h3
    have hc2 : ¬((env.procs (k + 1)).spawnOk = true
        ∧ (env.procs (k + 1)).poll = none) := by
      rintro ⟨ha, hb⟩
      rcases h2 with h2 | h2
      · rw [h2] at ha; cases ha
      · simp [hb] at h2
    rcases h3 with h3 | h3
    · simp [konqOpen, h1, hc2, h3]
    · by_cases hb3 : (env.procs (k + 2)).spawnOk = true
      · simp [konqOpen, h1, hc2, hb3, h3]
      · simp [konqOpen, h1, hc2, hb3]
  · intro u args rc hs hw hrc; simp [unixInvoke, hs, hw, hrc]
  · intro u args hbg hs hwc; simp [unixInvoke, hs, hbg, hwc]
  · intro u args c hbg hs hp; simp [unixInvoke, hs, hbg, hp]
  · intro u args remote h; simp [unixInvoke, h]

/-- Witness for C2 amended at concrete environments: a hostile environment
(every spawn raises) and an exits-1 environment (every spawn succeeds but
exits immediately with a non-success status). -/
theorem launch_failure_containment_witness :
    ((envF.procs 0).spawnOk = false
      ∧ (envK.procs 0).spawnOk = true
      ∧ (envK.procs 0).waitCode ≠ 0
      ∧ (envK.procs 0).poll = some 1
      ∧ (envK.procs 0).waitT = some 1
      ∧ (Elinks "elinks").background = false
      ∧ (Mozilla "firefox").background = true)
    ∧ ((unixInvoke (Mozilla "firefox") envF 0 ["http://x"] true true).1 = .error .osError
      ∧ (genericOpen (mkGenericStr "lynx") envF 0 "http://x" 0 true).1 = .ok false
      ∧ (genericOpen (mkGenericStr "lynx") envK 0 "http://x" 0 true).1 = .ok false
      ∧ (backgroundOpen (mkGenericStr "xdg-open") envK 0 "http://x" 0 true).1 = .ok false
      ∧ (unixInvoke (Mozilla "firefox") envK 0 ["http://x"] true true).1 = .ok false
      ∧ (unixInvoke (Elinks "elinks") envK 0 ["http://x"] false true).1 = .ok false
      ∧ (unixInvoke (Mozilla "firefox") envK 0 ["http://x"] false true).1 = .ok false
      ∧ (konqOpen envF 0 "http://x" 0 true).1 = .ok false) :=
  ⟨⟨by decide, by decide, by decide, by decide, by decide, rfl, rfl⟩,
   (launch_failure_containment_amended envF 0 "http://x" 0 true).2.2.2.2.2.2.2.2.2.2.2
     (Mozilla "firefox") ["http://x"] true (by decide),
   (launch_failure_containment_amended envF 0 "http://x" 0 true).2.1
     (mkGenericStr "lynx") (by decide),
   (launch_failure_containment_amended envK 0 "http://x" 0 true).2.2.1
     (mkGenericStr "lynx") (by decide) (by decide),
   (launch_failure_containment_amended envK 0 "http://x" 0 true).2.2.2.2.2.1
     (mkGenericStr "xdg-open") 1 (by decide) (by decide),
   (launch_failure_containment_amended envK 0 "http://x" 0 true).2.2.2.2.2.2.2.2.1
     (Mozilla "firefox") ["http://x"] 1 (by decide) (by decide) (by decide),
   (launch_failure_containment_amended envK 0 "http://x" 0 true).2.2.2.2.2.2.2.2.2.1
     (Elinks "elinks") ["http://x"] rfl (by decide) (by decide),
   (launch_failure_containment_amended envK 0 "http://x" 0 true).2.2.2.2.2.2.2.2.2.2.1
     (Mozilla "firefox") ["http://x"] 1 rfl (by decide) (by decide),
   (launch_failure_containment_amended envF 0 "http://x" 0 true).2.2.2.2.2.2.2.1
     (by decide) (Or.inl (by decide)) (Or.inl (by decide))⟩

/-- C5 counterexample: with `new = 3`, `GenericBrowser.open`,
`Konqueror.open` and `MacOSXOSAScript.open` do not raise: they ignore the
invalid value and return a boolean. -/
theorem invalid_new_not_raised_cex :
    (genericOpen (mkGenericStr "lynx") env1 0 "http://x" 3 true).1 = .ok true
    ∧ (konqOpen env1 0 "http://x" 3 true).1 = .ok true
    ∧ (osaOpen "safari" env1 0 "http://x" 3 true).1 = .ok true :=
  ⟨by decide, by decide, by decide⟩

/-- C5 amended: only `UnixBrowser.open` validates `new`: a value outside
{0,1,2} raises the module's `Error` there; `GenericBrowser`,
`BackgroundBrowser`, `Konqueror` and `MacOSXOSAScript` accept any `new`
without raising. -/
theorem bad_new_raises_only_in_unix (env : Env) (k : Nat) (url : String) (ar : Bool)
    (new : Int) (h0 : new ≠ 0) (h1 : new ≠ 1) (h2 : new ≠ 2) :
    (∀ u : UnixBrowser, (unixOpen u env k url new ar).1 = .error (.error (badNewMsg new)))
    ∧ (∀ g, ∃ b, (genericOpen g env k url new ar).1 = .ok b)
    ∧ (∀ g, ∃ b, (backgroundOpen g env k url new ar).1 = .ok b)
    ∧ (∃ b, (konqOpen env k url new ar).1 = .ok b)
    ∧ (∀ n, ∃ b, (osaOpen n env k url new ar).1 = .ok b) := by
  refine ⟨?_, fun g => genericOpen_returns_bool g env k url new ar,
    fun g => backgroundOpen_returns_bool g env k url new ar,
    konqOpen_returns_bool env k url new ar, ?_⟩
  · intro u; simp [unixOpen, h0, h1, h2]
  · intro n
    unfold osaOpen
    cases henv : env.osaPipe with
    | none => exact ⟨false, by simp [henv]⟩
    | some rc => exact ⟨rc.isNone, by simp [henv]⟩

/-- Witness for C5 amended at `new = 3`. -/
theorem bad_new_witness :
    ((3 : Int) ≠ 0 ∧ (3 : Int) ≠ 1 ∧ (3 : Int) ≠ 2)
    ∧ (unixOpen (Mozilla "firefox") env1 0 "http://x" 3 true).1
        = .error (.error (badNewMsg 3)) :=
  ⟨⟨by decide, by decide, by decide⟩,
   (bad_new_raises_only_in_unix env1 0 "http://x" true 3
      (by decide) (by decide) (by decide)).1 (Mozilla "firefox")⟩

/-- C6: in the remote phase of `UnixBrowser` (`_invoke` with
`remote=True`), when the spawn succeeds: if `p.wait(5)` completes with exit
status `rc` the phase succeeds exactly when `rc = 0`; if the 5-unit timeout
expires, `UnixBrowser.open` returns `True` overall with exactly one spawn
(the fallback phase is never invoked) and the spawn counter advanced by
one. -/
theorem remote_phase_timeout_success (u : UnixBrowser) (env : Env) (k : Nat)
    (url : String) (ar : Bool) (act : String)
    (hs : (env.procs k).spawnOk = true)
    (hact : u.remote_action = some act) :
    (∀ rc args, (env.procs k).waitT = some rc →
        (unixInvoke u env k args true ar).1 = .ok (decide (rc = 0)))
    ∧ ((env.procs k).waitT = none →
        (unixOpen u env k url 0 ar).1 = .ok true
        ∧ spawnCount (unixOpen u env k url 0 ar).2.1 = 1
        ∧ (unixOpen u env k url 0 ar).2.2 = k + 1) := by
  constructor
  · intro rc args h; simp [unixInvoke, hs, h]
  · intro h
    refine ⟨?_, ?_, ?_⟩ <;>
      simp [unixOpen, hact, unixInvoke, hs, h, spawnCount, List.filter]

/-- Witness for C6 on a Mozilla connector whose remote process never
exits. -/
theorem remote_phase_timeout_witness :
    ((envTO.procs 0).spawnOk = true ∧ (Mozilla "firefox").remote_action = some ""
      ∧ (envTO.procs 0).waitT = none)
    ∧ ((unixOpen (Mozilla "firefox") envTO 0 "http://x" 0 true).1 = .ok true
      ∧ spawnCount (unixOpen (Mozilla "firefox") envTO 0 "http://x" 0 true).2.1 = 1
      ∧ (unixOpen (Mozilla "firefox") envTO 0 "http://x" 0 true).2.2 = 0 + 1) :=
  ⟨⟨by decide, rfl, by decide⟩,
   (remote_phase_timeout_success (Mozilla "firefox") envTO 0 "http://x" true ""
      (by decide) rfl).2 (by decide)⟩

/-- C9 counterexample: (1) the first form (`kfmclient`) spawns and its
immediate poll already shows a non-success exit, yet `open` returns `True`
(it waits and succeeds unconditionally, not from the poll state); (2) the
second and third forms spawn without OS fault, yet `open` returns `False`
(so `False` is not returned only when all three forms fail to spawn). -/
theorem konqueror_attempt_order_cex :
    ((envK.procs 0).spawnOk = true ∧ (envK.procs 0).poll = some 1
      ∧ (konqOpen envK 0 "u" 0 true).1 = .ok true)
    ∧ ((envK2.procs 0).spawnOk = false ∧ (envK2.procs 1).spawnOk = true
      ∧ (envK2.procs 2).spawnOk = true
      ∧ (konqOpen envK2 0 "u" 0 true).1 = .ok false) :=
  ⟨⟨by decide, by decide, by decide⟩, ⟨by decide, by decide, by decide, by decide⟩⟩

/-- C9 amended: the three command forms are tried in a fixed order, but
acceptance differs per form: a spawned `kfmclient` is waited for and yields
`True` unconditionally; a spawned `konqueror` yields `True` only when its
immediate poll shows it still running, otherwise control falls through; a
spawned `kfm` yields its immediate poll state; and `False` is returned when
the fallthrough reaches `kfm` and it fails to spawn or exits immediately. -/
theorem konqueror_attempt_order_amended (env : Env) (k : Nat) (url : String)
    (new : Int) (ar : Bool) :
    ((env.procs k).spawnOk = true →
        (konqOpen env k url new ar).1 = .ok true
        ∧ spawnCount (konqOpen env k url new ar).2.1 = 1)
    ∧ ((env.procs k).spawnOk = false → (env.procs (k+1)).spawnOk = true →
        (env.procs (k+1)).poll = none →
        (konqOpen env k url new ar).1 = .ok true
        ∧ spawnCount (konqOpen env k url new ar).2.1 = 2)
    ∧ ((env.procs k).spawnOk = false → (env.procs (k+1)).spawnOk = true →
        ∀ c, (env.procs (k+1)).poll = some c →
        (konqOpen env k url new ar).1
          = .ok ((env.procs (k+2)).spawnOk && (env.procs (k+2)).poll.isNone)
        ∧ spawnCount (konqOpen env k url new ar).2.1 = 3)
    ∧ ((env.procs k).spawnOk = false → (env.procs (k+1)).spawnOk = false →
        (konqOpen env k url new ar).1
          = .ok ((env.procs (k+2)).spawnOk && (env.procs (k+2)).poll.isNone)
        ∧ spawnCount (konqOpen env k url new ar).2.1 = 3) := by
  refine ⟨?_, ?_, ?_, ?_⟩
  · intro h1; constructor <;> simp [konqOpen, h1, spawnCount, List.filter]
  · intro h1 h2 hp; constructor <;> simp [konqOpen, h1, h2, hp, spawnCount, List.filter]
  · intro h1 h2 c hp
    by_cases h3 : (env.procs (k+2)).spawnOk <;>
      constructor <;> simp [konqOpen, h1, h2, h3, hp, spawnCount, List.filter]
  · intro h1 h2
    by_cases h3 : (env.procs (k+2)).spawnOk <;>
      constructor <;> simp [konqOpen, h1, h2, h3, spawnCount, List.filter]

/-- Witness for C9 amended: first-form acceptance at a concrete env. -/
theorem konqueror_attempt_order_witness :
    (envK.procs 0).spawnOk = true
    ∧ ((konqOpen envK 0 "u" 0 true).1 = .ok true
      ∧ spawnCount (konqOpen envK 0 "u" 0 true).2.1 = 1) :=
  ⟨by decide, (konqueror_attempt_order_amended envK 0 "u" 0 true).1 (by decide)⟩

end Webbrowser

namespace Webbrowser

theorem withNameBase_nameOf (b : Browser) (n bb : String) :
    (b.withNameBase n bb).nameOf = n := by
  cases b <;> rfl

theorem withNameBase_basenameOf (b : Browser) (n bb : String) :
    (b.withNameBase n bb).basenameOf = bb := by
  cases b <;> rfl

theorem dictInsert_lookup (m : List (String × Descriptor)) (key : String) (v : Descriptor) :
    (dictInsert m key v).lookup key = some v := by
  induction m with
  | nil => simp [dictInsert, List.lookup]
  | cons p rest ih =>
    obtain ⟨k', v'⟩ := p
    by_cases h : k' = key
    · subst h; simp [dictInsert, List.lookup]
    · have hb : (key == k') = false := beq_eq_false_iff_ne.mpr (fun e => h e.symm)
      simp [dictInsert, h, List.lookup, hb, ih]

theorem register_tryorder (r : Registry) (name : String) (kl : Option (Unit → Browser))
    (i : Option Browser) (p : Bool) (hos : r.osPreferred = none) :
    (register r name kl i p).tryorder
      = if p then name :: r.tryorder else r.tryorder ++ [name] := by
  simp [register, hos]

theorem countKey_cons (k : String) (v : Descriptor) (rest : List (String × Descriptor))
    (key : String) :
    countKey ((k, v) :: rest) key = (if k == key then 1 else 0) + countKey rest key := by
  by_cases h : (k == key) = true
  · simp [countKey, List.filter_cons, h]
    omega
  · simp [countKey, List.filter_cons, h]

theorem countKey_dictInsert (m : List (String × Descriptor)) (key : String) (v : Descriptor)
    (h : countKey m key ≤ 1) : countKey (dictInsert m key v) key = 1 := by
  induction m with
  | nil => simp [dictInsert, countKey, List.filter]
  | cons p rest ih =>
    obtain ⟨k', v'⟩ := p
    by_cases hk : k' = key
    · subst hk
      rw [countKey_cons] at h
      simp only [beq_self_eq_true, if_true] at h
      simp [dictInsert, countKey_cons]
      omega
    · have hb : (k' == key) = false := beq_eq_false_iff_ne.mpr hk
      rw [countKey_cons, hb] at h
      simp at h
      simp [dictInsert, hk, countKey_cons, hb]
      exact ih (by omega)

/-- C7: a candidate string containing the `%s` placeholder — whether the
explicit `using` argument or an entry of the preference order — is split with
the shell-quoting splitter and immediately wrapped in a `BackgroundBrowser`
(when the final argv token is `&`, which is stripped) or a `GenericBrowser`,
with the registry returned untouched; the `_browsers` descriptor map is never
consulted (the result is the same for every `browsers` component, including
one holding a colliding name). -/
theorem get_placeholder_adhoc (split : String → List String) (env : Env) (r : Registry)
    (browser : String) (h : strIn "%s" browser = true) :
    getBrowser split env r (some browser)
      = (if (split browser).getLast? = some "&" then
          .ok (Browser.background (mkGenericList (split browser).dropLast), r)
        else .ok (Browser.generic (mkGenericList (split browser)), r))
    ∧ ∀ rest, getGo split env r (browser :: rest)
      = (if (split browser).getLast? = some "&" then
          .ok (Browser.background (mkGenericList (split browser).dropLast), r)
        else .ok (Browser.generic (mkGenericList (split browser)), r)) := by
  have key : ∀ rest, getGo split env r (browser :: rest)
      = (if (split browser).getLast? = some "&" then
          .ok (Browser.background (mkGenericList (split browser).dropLast), r)
        else .ok (Browser.generic (mkGenericList (split browser)), r)) := by
    intro rest
    unfold getGo
    simp only [h]
    rfl
  exact ⟨key [], key⟩

/-- Registry whose descriptor map holds an entry colliding with the ad-hoc
command string, to witness that the map is not consulted. -/
def regColl : Registry :=
  ⟨[("netscape %s &", ⟨none, some fxInst⟩)], ["netscape %s &"], none⟩

/-- Witness for C7 at a concrete ad-hoc command with a colliding
descriptor. -/
theorem get_placeholder_adhoc_witness :
    strIn "%s" "netscape %s &" = true
    ∧ getBrowser pySplitWs envW regColl (some "netscape %s &")
        = .ok (Browser.background (mkGenericList ["netscape", "%s"]), regColl) := by
  refine ⟨by decide, ?_⟩
  have h := (get_placeholder_adhoc pySplitWs envW regColl "netscape %s &" (by decide)).1
  rw [h]
  rfl

/-- C10: when a command string's first token is locatable but its basename's
descriptor holds only a factory (`klass`) and no pre-built instance,
`_synthesize` yields no connector (the factory is never used to build a
template), and `get` on that string exhausts its candidates and raises the
no-runnable-browser `Error`. -/
theorem factory_only_descriptor_unsynthesizable (split : String → List String)
    (env : Env) (r : Registry) (browser cmd : String) (cs : List String)
    (f : Unit → Browser)
    (h0 : strIn "%s" browser = false)
    (h1 : r.browsers.lookup (pyLower browser) = none)
    (h2 : pySplitWs browser = cmd :: cs)
    (h3 : env.which cmd = true)
    (h4 : r.browsers.lookup (pyLower (osBasename cmd)) = some ⟨some f, none⟩) :
    synthesize env r browser false = (none, r)
    ∧ getBrowser split env r (some browser)
        = .error (.error "could not locate runnable browser") := by
  have hsyn : synthesize env r browser false = (none, r) := by
    unfold synthesize
    rw [h2]
    simp [h3, h4]
  refine ⟨hsyn, ?_⟩
  show getGo split env r [browser] = _
  unfold getGo
  simp only [h0, Bool.false_eq_true, if_false, h1, hsyn]
  rfl

/-- Registry holding only a factory-only `konqueror` descriptor (as
`register('kfm', Konqueror)` would with no instance). -/
def regF : Registry :=
  ⟨[("konqueror", ⟨some (fun _ => .konq "konqueror" "konqueror"), none⟩)], ["konqueror"], none⟩

/-- Witness for C10 at a concrete factory-only registry. -/
theorem factory_only_descriptor_witness :
    (strIn "%s" "/opt/konqueror" = false
      ∧ regF.browsers.lookup (pyLower "/opt/konqueror") = none
      ∧ envW.which "/opt/konqueror" = true)
    ∧ getBrowser pySplitWs envW regF (some "/opt/konqueror")
        = .error (.error "could not locate runnable browser") :=
  ⟨⟨by decide, rfl, rfl⟩,
   (factory_only_descriptor_unsynthesizable pySplitWs envW regF "/opt/konqueror"
      "/opt/konqueror" [] (fun _ => .konq "konqueror" "konqueror")
      (by decide) rfl rfl rfl rfl).2⟩

/-- C3 counterexample: the synthesis path used by `get` passes the default
`preferred=False`, so the synthesized connector's name is appended to the
preference order, not registered as preferred (not at the front). -/
theorem synthesize_default_not_preferred :
    (synthesize envW reg0 "/usr/bin/firefox" false).1.isSome = true
    ∧ (synthesize envW reg0 "/usr/bin/firefox" false).2.tryorder
        = ["firefox", "/usr/bin/firefox"]
    ∧ (synthesize envW reg0 "/usr/bin/firefox" false).2.tryorder.head?
        ≠ some "/usr/bin/firefox" :=
  ⟨rfl, by decide, by decide⟩

/-- C3 amended: when the first token of the supplied command is locatable and
its basename's lowercase form keys a registered descriptor holding an
instance whose `basename` equals that lowercase name, `_synthesize` copies
the instance, rebinds `name` to the full supplied string and `basename` to
its base filename, registers the copy under the full string — at the front
of the preference order exactly when the `preferred` flag is set, appended
otherwise (with no OS-preferred browser configured) — and returns it; when
the executable is not locatable, or the basename keys no descriptor,
synthesis yields no connector and leaves the registry unchanged. -/
theorem synthesize_success_amended (env : Env) (r : Registry) (browser cmd : String)
    (cs : List String) (d : Descriptor) (ctrl : Browser) (preferred : Bool)
    (h2 : pySplitWs browser = cmd :: cs)
    (h3 : env.which cmd = true)
    (h4 : r.browsers.lookup (pyLower (osBasename cmd)) = some d)
    (h5 : d.inst = some ctrl)
    (h6 : pyLower (osBasename cmd) = ctrl.basenameOf)
    (hos : r.osPreferred = none) :
    synthesize env r browser preferred
      = (some (ctrl.withNameBase browser (osBasename browser)),
         register r browser none
           (some (ctrl.withNameBase browser (osBasename browser))) preferred)
    ∧ (ctrl.withNameBase browser (osBasename browser)).nameOf = browser
    ∧ (ctrl.withNameBase browser (osBasename browser)).basenameOf = osBasename browser
    ∧ (register r browser none
         (some (ctrl.withNameBase browser (osBasename browser))) preferred).browsers.lookup
           (pyLower browser)
        = some ⟨none, some (ctrl.withNameBase browser (osBasename browser))⟩
    ∧ (register r browser none
         (some (ctrl.withNameBase browser (osBasename browser))) preferred).tryorder
        = (if preferred then browser :: r.tryorder else r.tryorder ++ [browser])
    ∧ (∀ env2 : Env, env2.which cmd = false →
        synthesize env2 r browser preferred = (none, r))
    ∧ (∀ r2 : Registry, r2.browsers.lookup (pyLower (osBasename cmd)) = none →
        synthesize env r2 browser preferred = (none, r2)) := by
  refine ⟨?_, withNameBase_nameOf ctrl browser (osBasename browser),
    withNameBase_basenameOf ctrl browser (osBasename browser), ?_, ?_, ?_, ?_⟩
  · unfold synthesize
    rw [h2]
    simp only [h3, if_true]
    rw [h4]
    simp only [h5]
    rw [if_pos h6]
  · exact dictInsert_lookup r.browsers (pyLower browser) _
  · exact register_tryorder r browser none _ preferred hos
  · intro env2 hw
    unfold synthesize
    rw [h2]
    simp [hw]
  · intro r2 hn
    unfold synthesize
    rw [h2]
    simp [h3, hn]

/-- Witness for C3 amended at the `firefox` template registry with
`preferred = true`. -/
theorem synthesize_success_witness :
    (pySplitWs "/usr/bin/firefox" = ["/usr/bin/firefox"]
      ∧ envW.which "/usr/bin/firefox" = true
      ∧ reg0.browsers.lookup (pyLower (osBasename "/usr/bin/firefox"))
          = some ⟨none, some fxInst⟩
      ∧ pyLower (osBasename "/usr/bin/firefox") = fxInst.basenameOf)
    ∧ synthesize envW reg0 "/usr/bin/firefox" true
        = (some (fxInst.withNameBase "/usr/bin/firefox" (osBasename "/usr/bin/firefox")),
           register reg0 "/usr/bin/firefox" none
             (some (fxInst.withNameBase "/usr/bin/firefox"
               (osBasename "/usr/bin/firefox"))) true) :=
  ⟨⟨by decide, rfl, rfl, rfl⟩,
   (synthesize_success_amended envW reg0 "/usr/bin/firefox" "/usr/bin/firefox" []
      ⟨none, some fxInst⟩ fxInst true (by decide) rfl rfl rfl rfl rfl).1⟩

/-- C8: registering the same name twice leaves exactly one descriptor entry
under the lowercased name, holding the second (last-written) descriptor,
while the earlier preference-order entry is not removed: the order gains one
occurrence of the name per call (two in total here). -/
theorem register_twice_last_write_wins (r : Registry) (name : String)
    (k1 : Option (Unit → Browser)) (i1 : Option Browser) (p1 : Bool)
    (k2 : Option (Unit → Browser)) (i2 : Option Browser) (p2 : Bool)
    (hu : countKey r.browsers (pyLower name) ≤ 1)
    (hos : r.osPreferred = none) :
    (register (register r name k1 i1 p1) name k2 i2 p2).browsers.lookup (pyLower name)
      = some ⟨k2, i2⟩
    ∧ countKey (register (register r name k1 i1 p1) name k2 i2 p2).browsers
        (pyLower name) = 1
    ∧ (register (register r name k1 i1 p1) name k2 i2 p2).tryorder.count name
      = r.tryorder.count name + 2 := by
  have hos1 : (register r name k1 i1 p1).osPreferred = none := hos
  refine ⟨dictInsert_lookup _ _ _, ?_, ?_⟩
  · exact countKey_dictInsert _ _ _ (le_of_eq (countKey_dictInsert _ _ _ hu))
  · rw [register_tryorder _ name k2 i2 p2 hos1, register_tryorder _ name k1 i1 p1 hos]
    by_cases hp1 : p1 = true <;> by_cases hp2 : p2 = true <;>
      simp [hp1, hp2, List.count_cons_self, List.count_append]

/-- Empty registry fixture. -/
def regE : Registry := ⟨[], [], none⟩

/-- Witness for C8 at the empty registry with a mixed-case name. -/
theorem register_twice_witness :
    countKey regE.browsers (pyLower "Chrome") ≤ 1
    ∧ ((register (register regE "Chrome" (some (fun _ => dfltBrowser)) none false)
          "Chrome" none (some fxInst) false).browsers.lookup (pyLower "Chrome")
        = some ⟨none, some fxInst⟩
      ∧ countKey ((register (register regE "Chrome" (some (fun _ => dfltBrowser)) none false)
          "Chrome" none (some fxInst) false)).browsers (pyLower "Chrome") = 1
      ∧ (register (register regE "Chrome" (some (fun _ => dfltBrowser)) none false)
          "Chrome" none (some fxInst) false).tryorder.count "Chrome"
        = regE.tryorder.count "Chrome" + 2) :=
  ⟨by decide,
   register_twice_last_write_wins regE "Chrome" (some (fun _ => dfltBrowser)) none false
     none (some fxInst) false (by decide) rfl⟩

end Webbrowser

namespace Webbrowser

theorem getGo_resolved (split : String → List String) (env : Env) (r : Registry)
    (name : String) (rest : List String) (b : Browser)
    (h0 : strIn "%s" name = false)
    (h1 : resolveInst r name = some b) :
    getGo split env r (name :: rest) = .ok (b, r) := by
  have hex : ∃ d, r.browsers.lookup (pyLower name) = some d ∧ d.inst = some b := by
    unfold resolveInst at h1
    cases hl : r.browsers.lookup (pyLower name) with
    | none => rw [hl] at h1; simp at h1
    | some d => rw [hl] at h1; exact ⟨d, rfl, h1⟩
  obtain ⟨d, hl, hd⟩ := hex
  unfold getGo
  simp only [h0, Bool.false_eq_true, if_false, hl, hd]

theorem openSpec_all_false (env : Env) (k : Nat) (bs : List Browser)
    (url : String) (new : Int) (ar : Bool)
    (h : ∀ b ∈ bs, ∀ k', (b.openB env k' url new ar).1 = .ok false) :
    (openSpec env k bs url new ar).1 = .ok false := by
  induction bs generalizing k with
  | nil => rfl
  | cons b rest ih =>
    have hb := h b (by simp) k
    unfold openSpec
    rcases hob : b.openB env k url new ar with ⟨res, evs, k'⟩
    rw [hob] at hb
    simp at hb
    subst hb
    rcases hspec : openSpec env k' rest url new ar with ⟨res2, evs2, k2⟩
    have hrest := ih k' (fun b2 hb2 => h b2 (List.mem_cons_of_mem b hb2))
    rw [hspec] at hrest
    simp at hrest
    simp [hspec, hrest]

theorem openLoop_spec (split : String → List String) (env : Env) (r : Registry)
    (url : String) (new : Int) (ar : Bool) (H : allResolvedB r = true) :
    ∀ (n i k : Nat), r.tryorder.length - i = n →
      openLoop split env (n + 1) r i k url new ar
        = some (openSpec env k ((r.tryorder.drop i).map (resolveInstD r)) url new ar) := by
  intro n
  induction n with
  | zero =>
    intro i k hn
    have hi : r.tryorder.length ≤ i := by omega
    unfold openLoop
    rw [dif_neg (by omega), List.drop_eq_nil_of_le hi]
    rfl
  | succ n ih =>
    intro i k hn
    have hi : i < r.tryorder.length := by omega
    have hmem : r.tryorder.get ⟨i, hi⟩ ∈ r.tryorder := List.get_mem _ _ _
    have hres := List.all_eq_true.mp H _ hmem
    rw [Bool.and_eq_true] at hres
    obtain ⟨hns, hsome⟩ := hres
    have hns' : strIn "%s" (r.tryorder.get ⟨i, hi⟩) = false := by simpa using hns
    obtain ⟨b, hb⟩ := Option.isSome_iff_exists.mp hsome
    have hdflt : resolveInstD r (r.tryorder.get ⟨i, hi⟩) = b := by
      unfold resolveInstD
      rw [hb]
      rfl
    have hdrop : r.tryorder.drop i
        = r.tryorder.get ⟨i, hi⟩ :: r.tryorder.drop (i + 1) := by
      rw [List.drop_eq_getElem_cons hi]
      rfl
    unfold openLoop
    rw [dif_pos hi, getGo_resolved split env r _ [] b hns' hb, hdrop, List.map_cons, hdflt]
    rcases hob : b.openB env k url new ar with ⟨res, evs, k'⟩
    cases res with
    | error e => simp [openSpec, hob]
    | ok bv =>
      cases bv with
      | true => simp [openSpec, hob]
      | false =>
        have hrec := ih (i + 1) k' (by omega)
        rcases hspec : openSpec env k' ((r.tryorder.drop (i + 1)).map (resolveInstD r))
            url new ar with ⟨res2, evs2, k2⟩
        rw [hspec] at hrec
        have hspec2 : openSpec env k'
            (((r.tryorder.map (resolveInstD r))).drop (i + 1)) url new ar
            = (res2, evs2, k2) := by
          rw [← List.map_drop]
          exact hspec
        simp [openSpec, hob, hrec, hspec2]

/-- C4: on a fully registered preference order (every name placeholder-free
and resolving to a stored instance), the top-level `open` equals the
first-success fold over the order's connectors in order: it stops at the
first connector reporting `True` (later connectors are not invoked by the
fold), and when every connector reports `False` the overall result is `False`
without an error. -/
theorem open_tries_order_first_success (split : String → List String) (env : Env)
    (r : Registry) (url : String) (new : Int) (ar : Bool)
    (H : allResolvedB r = true) :
    openUrl split env (r.tryorder.length + 1) r url new ar
      = some (openSpec env 0 (r.tryorder.map (resolveInstD r)) url new ar)
    ∧ ((∀ b ∈ r.tryorder.map (resolveInstD r), ∀ k,
          (b.openB env k url new ar).1 = .ok false) →
        (openSpec env 0 (r.tryorder.map (resolveInstD r)) url new ar).1 = .ok false) := by
  constructor
  · have h := openLoop_spec split env r url new ar H r.tryorder.length 0 0 (by omega)
    simpa [openUrl] using h
  · intro hall
    exact openSpec_all_false env 0 _ url new ar hall

/-- Connector `a`: always reports failure under `envAB` (first spawn exits 1). -/
def aInst : Browser := .generic (mkGenericStr "a")

/-- Connector `b`: reports success under `envAB` (second spawn exits 0). -/
def bInst : Browser := .generic (mkGenericStr "b")

/-- Preference order `["a", "b"]` with both connectors registered. -/
def regAB : Registry :=
  ⟨[("a", ⟨none, some aInst⟩), ("b", ⟨none, some bInst⟩)], ["a", "b"], none⟩

/-- First spawn exits 1 (failure), later spawns exit 0 (success). -/
def envAB : Env := ⟨fun i => if i = 0 then exit1B else okB, fun _ => false, none⟩

/-- Witness for C4: the spec's end-to-end scenario — order `["a","b"]`,
`a` fails, `b` succeeds; the call returns `True` and both connectors were
invoked in order (two spawns). -/
theorem open_tries_order_witness :
    allResolvedB regAB = true
    ∧ openUrl pySplitWs envAB (regAB.tryorder.length + 1) regAB "u" 0 true
        = some (openSpec envAB 0 (regAB.tryorder.map (resolveInstD regAB)) "u" 0 true)
    ∧ (openUrl pySplitWs envAB 3 regAB "u" 0 true).map (fun x => x.1) = some (.ok true)
    ∧ (openUrl pySplitWs envAB 3 regAB "u" 0 true).map (fun x => spawnCount x.2.1)
        = some 2 :=
  ⟨by decide,
   (open_tries_order_first_success pySplitWs envAB regAB "u" 0 true (by decide)).1,
   by decide, by decide⟩

end Webbrowser
